import Mathlib

/-!
Verification of the reselect selector library against its design document.

The development shallowly embeds, as Lean state machines, the single-slot
memoizer of the legacy module (`internalMemoize`, `argsEquals`, `memoize`,
`defaultValueEquals`), the `createSelector` composition core of `index.ts`
(`getDependencies`, the options handling, `dependenciesChecker`, the
instance surface attached by `Object.assign`) and `createStructuredSelector`.
Mutable closure state becomes an explicit state record threaded through step
functions; JavaScript `undefined` becomes a designated element (or `none`);
object identity becomes structural equality over values that carry a unique
allocation id; a function that can throw returns `Except`.
-/

namespace Reselect

/-- Cache state of the closure created by `internalMemoize`: the captured
variables `lastArgs` and `lastResult`, both initially `null` (here `none`). -/
structure MemoState (α β : Type) where
  lastArgs : Option (List α)
  lastResult : Option β
  deriving Repr, DecidableEq

/-- Both closure variables start out as `null`. -/
def initMemoState : MemoState α β := ⟨none, none⟩

/-- JavaScript array indexing `b[i]`: an out-of-range read yields `undefined`,
modelled by the designated element `undef`. -/
def jsIndex (undef : α) (b : List α) (i : Nat) : α := (b.get? i).getD undef

/-- Loop of `argsEquals`: position `i` compares element `v` of the incoming
tuple against `b[i]`. -/
def argsEqAux (valueEquals : α → α → Bool) (undef : α) (b : List α) :
    Nat → List α → Bool
  | _, [] => true
  | i, v :: rest =>
      valueEquals v (jsIndex undef b i) && argsEqAux valueEquals undef b (i + 1) rest

/-- Embedding of `argsEquals(a, b, valueEquals)`, which is
`a.every((value, index) => valueEquals(value, b[index]))`: the scan runs over
the positions of the incoming tuple `a` only. -/
def argsEquals (valueEquals : α → α → Bool) (undef : α) (a b : List α) : Bool :=
  argsEqAux valueEquals undef b 0 a

/-- Embedding of `defaultValueEquals(a, b) { return a === b }`; strict
equality on the modelled value domain is decidable equality. -/
def defaultValueEquals [DecidableEq α] (a b : α) : Bool := decide (a = b)

/-- Outcome of one call of the memoized closure: the returned value (`none`
models returning the initial `null`), the updated closure state, and whether
the wrapped function was invoked. -/
structure MemoCall (α β : Type) where
  ret : Option β
  state : MemoState α β
  invoked : Bool
  deriving Repr, DecidableEq

/-- One call of the closure returned by `internalMemoize(func, valueEquals)`:
when `lastArgs` is non-null and `argsEquals` holds, return `lastResult`
without invoking the wrapped function; otherwise store the incoming
arguments, invoke, store and return the result. -/
def internalMemoize (func : List α → β) (valueEquals : α → α → Bool)
    (undef : α) (st : MemoState α β) (args : List α) : MemoCall α β :=
  match st.lastArgs with
  | some la =>
      if argsEquals valueEquals undef args la then ⟨st.lastResult, st, false⟩
      else
        let r := func args
        ⟨some r, ⟨some args, some r⟩, true⟩
  | none =>
      let r := func args
      ⟨some r, ⟨some args, some r⟩, true⟩

/-- Outcome of one call when the wrapped function can throw. -/
structure MemoCallE (ε α β : Type) where
  ret : Except ε (Option β)
  state : MemoState α β
  invoked : Bool

/-- Same step for a wrapped function that can throw: the source assigns
`lastArgs = args` before `lastResult = func(...args)`, so a throw leaves the
stored arguments updated, the stored result untouched, and propagates the
exception to the caller. -/
def internalMemoizeE (func : List α → Except ε β) (valueEquals : α → α → Bool)
    (undef : α) (st : MemoState α β) (args : List α) : MemoCallE ε α β :=
  match st.lastArgs with
  | some la =>
      if argsEquals valueEquals undef args la then ⟨.ok st.lastResult, st, false⟩
      else
        match func args with
        | .ok r => ⟨.ok (some r), ⟨some args, some r⟩, true⟩
        | .error e => ⟨.error e, ⟨some args, st.lastResult⟩, true⟩
  | none =>
      match func args with
      | .ok r => ⟨.ok (some r), ⟨some args, some r⟩, true⟩
      | .error e => ⟨.error e, ⟨some args, st.lastResult⟩, true⟩

/-- Modelled from the spec: the pairwise argument-tuple comparison of the
bounded-history memoizer `defaultMemoize`, whose source file is not among the
provided sources — a cached tuple and an incoming tuple match when they have
the same length and every position satisfies the equality check (spec 4.2).
The same predicate also serves as the formal reading of the phrase
`pairwise-equal argument tuples` used by several claims. -/
def pairwiseEq (valueEquals : α → α → Bool) (a b : List α) : Bool :=
  a.length == b.length && (a.zip b).all fun p => valueEquals p.1 p.2

theorem jsIndex_cons_succ (undef v : α) (b : List α) (i : Nat) :
    jsIndex undef (v :: b) (i + 1) = jsIndex undef b i := rfl

theorem argsEqAux_shift (eq : α → α → Bool) (undef w : α) (b : List α) :
    ∀ (a : List α) (i : Nat),
      argsEqAux eq undef (w :: b) (i + 1) a = argsEqAux eq undef b i a
  | [], _ => rfl
  | v :: rest, i => by
      simp only [argsEqAux, jsIndex_cons_succ,
        argsEqAux_shift eq undef w b rest (i + 1)]

theorem argsEquals_nil (eq : α → α → Bool) (undef : α) (b : List α) :
    argsEquals eq undef [] b = true := rfl

theorem argsEquals_cons_cons (eq : α → α → Bool) (undef v w : α)
    (a b : List α) :
    argsEquals eq undef (v :: a) (w :: b) = (eq v w && argsEquals eq undef a b) := by
  simp only [argsEquals, argsEqAux, argsEqAux_shift]
  rfl

theorem argsEquals_of_zip_all (eq : α → α → Bool) (undef : α) :
    ∀ (a b : List α), a.length ≤ b.length →
      ((a.zip b).all fun p => eq p.1 p.2) = true →
      argsEquals eq undef a b = true
  | [], _, _, _ => rfl
  | v :: a, [], h, _ => by simp at h
  | v :: a, w :: b, h, hall => by
      simp only [List.zip_cons_cons, List.all_cons] at hall
      have h1 := (Bool.and_eq_true _ _).mp hall
      rw [argsEquals_cons_cons, h1.1,
        argsEquals_of_zip_all eq undef a b (by simpa using h) h1.2]
      rfl

theorem pairwiseEq_imp_argsEquals (eq : α → α → Bool) (undef : α)
    (a b : List α) (h : pairwiseEq eq a b = true) :
    argsEquals eq undef a b = true := by
  have h1 := (Bool.and_eq_true _ _).mp h
  have hlen : a.length = b.length := by
    have h2 := h1.1
    simpa using h2
  exact argsEquals_of_zip_all eq undef a b (Nat.le_of_eq hlen) h1.2

/-- C2: for every wrapped function and every pair of pairwise-equal argument
tuples, calling the freshly created single-slot memoized function twice
consecutively invokes the wrapped function exactly once — the first call
invokes it and the second returns the stored result without invoking it. -/
theorem c2_single_slot_two_equal_calls
    (func : List α → β) (eq : α → α → Bool) (undef : α) (X Xp : List α)
    (h : pairwiseEq eq Xp X = true) :
    let r1 := internalMemoize func eq undef initMemoState X
    let r2 := internalMemoize func eq undef r1.state Xp
    r1.invoked = true ∧ r2.invoked = false ∧
      r2.ret = some (func X) ∧ r2.ret = r1.ret := by
  simp only [internalMemoize, initMemoState,
    pairwiseEq_imp_argsEquals eq undef Xp X h, if_true]
  refine ⟨?_, ?_, ?_, ?_⟩ <;> trivial

/-- Witness for C2 at the wrapped function `List.length`, tuples `[5, 7]`. -/
theorem c2_single_slot_two_equal_calls_witness :
    let func := fun l : List Nat => l.length
    let r1 := internalMemoize func defaultValueEquals 0 initMemoState [5, 7]
    let r2 := internalMemoize func defaultValueEquals 0 r1.state [5, 7]
    r1.invoked = true ∧ r2.invoked = false ∧
      r2.ret = some (func [5, 7]) ∧ r2.ret = r1.ret :=
  c2_single_slot_two_equal_calls (fun l : List Nat => l.length)
    defaultValueEquals 0 [5, 7] [5, 7] (by decide)

/-- C3 counterexample: with the cached tuple `[some 1, some 2]` an incoming
shorter tuple `[some 1]` is judged equal — the comparison only scans the
incoming positions — so the call of different arity is a cache hit: the
wrapped function is not invoked and the stale stored result `2` is returned,
refuting the claim that tuples of different lengths are never judged equal. -/
theorem c3_counterexample :
    let func := fun l : List (Option Nat) => l.length
    let r1 := internalMemoize func defaultValueEquals none initMemoState
      [some 1, some 2]
    let r2 := internalMemoize func defaultValueEquals none r1.state [some 1]
    r2.invoked = false ∧ r2.ret = some 2 ∧
      ([some (1 : Nat)].length = [some (1 : Nat), some 2].length) = False := by
  decide

/-- C3 amended: the argument comparison of the single-slot memoizer scans
only the positions of the incoming tuple, so an incoming tuple that is
pointwise `valueEquals`-equal to a prefix of the cached tuple is judged
equal even when the lengths differ: the call is a cache hit, the wrapped
function is not invoked, and the stored result is returned unchanged. -/
theorem c3_amended_shorter_tuple_hits
    (func : List α → β) (eq : α → α → Bool) (undef : α)
    (la args : List α) (res : Option β)
    (hlen : args.length ≤ la.length)
    (hpre : ((args.zip la).all fun p => eq p.1 p.2) = true) :
    internalMemoize func eq undef ⟨some la, res⟩ args =
      ⟨res, ⟨some la, res⟩, false⟩ := by
  simp only [internalMemoize, argsEquals_of_zip_all eq undef args la hlen hpre,
    if_true]

/-- Witness for the amended C3: cached `[3, 4, 5]`, incoming prefix `[3, 4]`. -/
theorem c3_amended_shorter_tuple_hits_witness :
    internalMemoize (fun l : List Nat => l.length) defaultValueEquals 0
      ⟨some [3, 4, 5], some 3⟩ [3, 4] = ⟨some 3, ⟨some [3, 4, 5], some 3⟩, false⟩ :=
  c3_amended_shorter_tuple_hits (fun l : List Nat => l.length)
    defaultValueEquals 0 [3, 4, 5] [3, 4] (some 3) (by decide) (by decide)

/-- Decides whether a call with `args` misses the cache in state `st`. -/
def missesOn (eq : α → α → Bool) (undef : α) (st : MemoState α β)
    (args : List α) : Bool :=
  match st.lastArgs with
  | none => true
  | some la => !(argsEquals eq undef args la)

/-- C10: the single-slot memoizer stores the incoming tuple in `lastArgs`
before invoking the wrapped function, so a call on which the wrapped function
throws updates the stored arguments while the stored result stays untouched;
a subsequent call with a pairwise-equal tuple is then a cache hit that
returns the stale stored result — `null` when the throwing call was the
first ever — without invoking the wrapped function and without raising. -/
theorem c10_throw_updates_args_not_result
    (func : List α → Except ε β) (eq : α → α → Bool) (undef : α)
    (st : MemoState α β) (args argsp : List α) (e : ε)
    (hmiss : missesOn eq undef st args = true)
    (hthrow : func args = .error e)
    (heq : pairwiseEq eq argsp args = true) :
    let r1 := internalMemoizeE func eq undef st args
    let r2 := internalMemoizeE func eq undef r1.state argsp
    r1.ret = .error e ∧ r1.state.lastArgs = some args ∧
      r1.state.lastResult = st.lastResult ∧ r1.invoked = true ∧
      r2.ret = .ok st.lastResult ∧ r2.invoked = false ∧
      (st = initMemoState → r2.ret = .ok none) := by
  have hae := pairwiseEq_imp_argsEquals eq undef argsp args heq
  match hst : st.lastArgs with
  | none =>
      simp only [internalMemoizeE, hst, hthrow, hae, if_true]
      refine ⟨?_, ?_, ?_, ?_, ?_, ?_, fun hinit => ?_⟩ <;>
        first
          | trivial
          | (rw [show st.lastResult = none from
              congrArg MemoState.lastResult hinit])
  | some la =>
      have hne : argsEquals eq undef args la = false := by
        simp only [missesOn, hst, Bool.not_eq_true'] at hmiss
        exact hmiss
      simp only [internalMemoizeE, hst, hne, Bool.false_eq_true, if_false,
        hthrow, hae, if_true]
      refine ⟨?_, ?_, ?_, ?_, ?_, ?_, fun hinit => ?_⟩ <;>
        first
          | trivial
          | (rw [show st.lastResult = none from
              congrArg MemoState.lastResult hinit])

/-- Witness for C10: a wrapped function that always throws, first call ever. -/
theorem c10_throw_updates_args_not_result_witness :
    let func := fun _ : List Nat => (Except.error 7 : Except Nat Nat)
    let r1 := internalMemoizeE func defaultValueEquals 0 initMemoState [1]
    let r2 := internalMemoizeE func defaultValueEquals 0 r1.state [1]
    r1.ret = .error 7 ∧ r1.state.lastArgs = some [1] ∧
      r1.state.lastResult = none ∧ r1.invoked = true ∧
      r2.ret = .ok none ∧ r2.invoked = false ∧ r2.ret = .ok none := by
  have h := c10_throw_updates_args_not_result
    (fun _ : List Nat => (Except.error 7 : Except Nat Nat))
    defaultValueEquals 0 initMemoState [1] [1] 7 (by decide) rfl (by decide)
  exact ⟨h.1, h.2.1, h.2.2.1, h.2.2.2.1, h.2.2.2.2.1, h.2.2.2.2.2.1,
    h.2.2.2.2.2.2 rfl⟩

/-! Embedding of the `createSelector` core of `index.ts`. The composer keeps,
per output selector, the mutable closure variables `recomputations`,
`lastResult` and `firstRun` together with three single-slot caches: the outer
args-memoizer around `dependenciesChecker` (a `defaultMemoize` with the
default strict equality), the combiner-memoizer `memoizedResultFunc`, and the
`makeAnObject` helper used by the input-stability check. The combiner
receives, besides the extracted values, the fresh `recomputations` count,
which doubles as the allocation identity of the value it produces (a
JavaScript combiner closure can observe both). -/

/-- Frequency setting of the input-stability check,
`always`, `once` or `never`. -/
inductive StabilityCheck where
  | always
  | once
  | never
  deriving DecidableEq, Repr

/-- State of one output selector instance. -/
structure SelState (σ γ ρ : Type) where
  outer : Option (List σ × ρ)
  inner : Option (List γ × ρ)
  makeAnObjectArgs : Option (List γ)
  recomputations : Nat
  lastResult : Option ρ
  firstRun : Bool
  deriving Repr, DecidableEq

/-- Initial state: empty caches, counter `0`, no last result, first run. -/
def initSelState : SelState σ γ ρ := ⟨none, none, none, 0, none, true⟩

/-- Outcome of one call of the output selector: the returned value, the new
state, whether the input-stability check ran, whether it warned, and whether
the combiner was invoked. -/
structure SelCall (σ γ ρ : Type) where
  ret : ρ
  state : SelState σ γ ρ
  checkFired : Bool
  warned : Bool
  combinerInvoked : Bool
  deriving Repr, DecidableEq

/-- Condition under which the input-stability check runs on a
`dependenciesChecker` execution: never in production mode, and per the
effective frequency `finalStabilityCheck = inputStabilityCheck ??
globalStabilityCheck` — on `always`, or on `once` while `firstRun` is set. -/
def checkFires (inputStabilityCheck : Option StabilityCheck)
    (globalStabilityCheck : StabilityCheck) (isProd firstRun : Bool) : Bool :=
  let finalStabilityCheck := inputStabilityCheck.getD globalStabilityCheck
  !isProd && (finalStabilityCheck == StabilityCheck.always ||
    (finalStabilityCheck == StabilityCheck.once && firstRun))

/-- Embedding of the body of `dependenciesChecker` (the closure the outer
`defaultMemoize` wraps): run every dependency on the raw call arguments; when
the effective stability setting asks for it (never in production mode), run
them a second time and compare the two extraction results through the
memoized `makeAnObject` (two calls return the same object exactly when the
second is a cache hit), emitting a warning on mismatch and clearing
`firstRun`; finally consult `memoizedResultFunc`, whose wrapped
`recomputationWrapper` increments `recomputations` before applying
`resultFunc`. The two memoized helpers are single-slot caches modelled from
the spec (4.2), since the `defaultMemoize` source file is not among the
provided sources. -/
def dependenciesCheckerRun (deps : List (List σ → γ))
    (resultFunc : Nat → List γ → ρ) (eqG : γ → γ → Bool)
    (inputStabilityCheck : Option StabilityCheck)
    (globalStabilityCheck : StabilityCheck) (isProd : Bool)
    (st : SelState σ γ ρ) (args : List σ) : SelCall σ γ ρ :=
  let params := deps.map fun d => d args
  let fired := checkFires inputStabilityCheck globalStabilityCheck isProd
    st.firstRun
  let checkOut :=
    if fired then
      let paramsCopy := deps.map fun d => d args
      let la1 :=
        match st.makeAnObjectArgs with
        | some la => if pairwiseEq eqG params la then la else params
        | none => params
      let equal := pairwiseEq eqG paramsCopy la1
      (!equal, if equal then some la1 else some paramsCopy, false)
    else (false, st.makeAnObjectArgs, st.firstRun)
  let innerOut :=
    match st.inner with
    | some (cp, cr) =>
        if pairwiseEq eqG params cp then (cr, st.inner, st.recomputations, false)
        else
          let n := st.recomputations + 1
          let r := resultFunc n params
          (r, some (params, r), n, true)
    | none =>
        let n := st.recomputations + 1
        let r := resultFunc n params
        (r, some (params, r), n, true)
  { ret := innerOut.1
    state :=
      { outer := some (args, innerOut.1)
        inner := innerOut.2.1
        makeAnObjectArgs := checkOut.2.1
        recomputations := innerOut.2.2.1
        lastResult := some innerOut.1
        firstRun := checkOut.2.2 }
    checkFired := fired
    warned := checkOut.1
    combinerInvoked := innerOut.2.2.2 }

/-- One call of the output selector: the outer args-memoizer — a
`defaultMemoize` over the raw arguments with the default strict equality,
modelled from the spec (4.2) because its source file is absent — either
answers from its single cached entry or runs `dependenciesChecker`. -/
def selectorCall [DecidableEq σ] (deps : List (List σ → γ))
    (resultFunc : Nat → List γ → ρ) (eqG : γ → γ → Bool)
    (inputStabilityCheck : Option StabilityCheck)
    (globalStabilityCheck : StabilityCheck) (isProd : Bool)
    (st : SelState σ γ ρ) (args : List σ) : SelCall σ γ ρ :=
  match st.outer with
  | some (cargs, cres) =>
      if pairwiseEq defaultValueEquals args cargs then
        ⟨cres, st, false, false, false⟩
      else
        dependenciesCheckerRun deps resultFunc eqG inputStabilityCheck
          globalStabilityCheck isProd st args
  | none =>
      dependenciesCheckerRun deps resultFunc eqG inputStabilityCheck
        globalStabilityCheck isProd st args

/-- Runs a sequence of selector calls; each call carries the value the
mutable global stability setting has at that moment. -/
def runCalls [DecidableEq σ] (deps : List (List σ → γ))
    (resultFunc : Nat → List γ → ρ) (eqG : γ → γ → Bool)
    (inputStabilityCheck : Option StabilityCheck) (isProd : Bool) :
    SelState σ γ ρ → List (StabilityCheck × List σ) → List (SelCall σ γ ρ)
  | _, [] => []
  | st, (g, args) :: rest =>
      let r := selectorCall deps resultFunc eqG inputStabilityCheck g isProd
        st args
      r :: runCalls deps resultFunc eqG inputStabilityCheck isProd r.state rest

/-- Embedding of the value `createSelector` returns: the callable step
together with the data fields attached by `Object.assign`. -/
structure OutputSelectorModel (σ γ ρ : Type) [DecidableEq σ] where
  call : StabilityCheck → Bool → SelState σ γ ρ → List σ → SelCall σ γ ρ
  resultFunc : Nat → List γ → ρ
  dependencies : List (List σ → γ)

/-- Constructs the output selector object, mirroring lines 203 to 212 of
`index.ts`: the callable plus `resultFunc` (stored unmodified) and
`dependencies` (the input selectors in declaration order). -/
def createSelectorObject [DecidableEq σ] (deps : List (List σ → γ))
    (resultFunc : Nat → List γ → ρ) (eqG : γ → γ → Bool)
    (inputStabilityCheck : Option StabilityCheck) : OutputSelectorModel σ γ ρ :=
  { call := fun g isProd st args =>
      selectorCall deps resultFunc eqG inputStabilityCheck g isProd st args
    resultFunc := resultFunc
    dependencies := deps }

/-- Names of the properties the `Object.assign` call in `createSelector`
attaches to the selector function. -/
def outputSelectorFieldNames : List String :=
  ["resultFunc", "memoizedResultFunc", "dependencies", "lastResult",
   "recomputations", "resetRecomputations"]

/-- State object of scenario A, a record with one numeric field `a`,
carrying an allocation identity `oid`; distinct allocations receive distinct
`oid`, so structural equality models JavaScript reference identity. -/
structure StateA where
  oid : Nat
  a : Nat
  deriving DecidableEq, Repr

/-- Input selector `state => state.a`, applied to the raw argument list. -/
def selStateA : List StateA → Nat := fun args => ((args.get? 0).map StateA.a).getD 0

/-- Combiner `a => a`; it ignores the recomputation counter. -/
def combId : Nat → List Nat → Nat := fun _ params => (params.get? 0).getD 0

/-- Scenario A selector `createSelector(state => state.a, a => a)` in
development mode with no per-selector override. -/
def c1Call (g : StabilityCheck) (st : SelState StateA Nat Nat)
    (args : List StateA) : SelCall StateA Nat Nat :=
  selectorCall [selStateA] combId defaultValueEquals none g false st args

/-- First call of scenario A, on the state object with identity 1, field 1. -/
def c1r1 : SelCall StateA Nat Nat := c1Call .once initSelState [⟨1, 1⟩]

/-- Second call of scenario A, on a fresh state object with the same field. -/
def c1r2 : SelCall StateA Nat Nat := c1Call .once c1r1.state [⟨2, 1⟩]

/-- Third call of scenario A, on a fresh state object with field 2. -/
def c1r3 : SelCall StateA Nat Nat := c1Call .once c1r2.state [⟨3, 2⟩]

/-- C1: scenario A end to end — the first call on a state with field `a = 1`
returns `1` with one recomputation; a second call on a fresh but equal-valued
state object returns `1` without invoking the combiner again
(`recomputations` stays `1`, the extracted input value being identical); a
call on a state with `a = 2` returns `2` and `recomputations` becomes `2`. -/
theorem c1_cascading_scenario_a :
    c1r1.ret = 1 ∧ c1r1.state.recomputations = 1 ∧
      c1r2.ret = 1 ∧ c1r2.state.recomputations = 1 ∧
      c1r2.combinerInvoked = false ∧
      c1r3.ret = 2 ∧ c1r3.state.recomputations = 2 := by
  decide

/-- C4 counterexample: the `Object.assign` call attaches neither
`dependencyRecomputations` nor `resetDependencyRecomputations` — those
counters do not exist in this version — refuting the claimed instance
surface. -/
theorem c4_counterexample :
    outputSelectorFieldNames.contains "dependencyRecomputations" = false ∧
      outputSelectorFieldNames.contains "resetDependencyRecomputations" = false := by
  decide

/-- C4 amended: the instance surface consists of exactly `resultFunc`,
`memoizedResultFunc`, `dependencies`, `lastResult`, `recomputations` and
`resetRecomputations`, where `resultFunc` is the original combiner stored
unmodified and `dependencies` is the ordered list of input selectors. -/
theorem c4_amended_instance_surface (σ γ ρ : Type) [DecidableEq σ]
    (deps : List (List σ → γ)) (rf : Nat → List γ → ρ) (eqG : γ → γ → Bool)
    (isc : Option StabilityCheck) :
    (createSelectorObject deps rf eqG isc).resultFunc = rf ∧
      (createSelectorObject deps rf eqG isc).dependencies = deps ∧
      outputSelectorFieldNames =
        ["resultFunc", "memoizedResultFunc", "dependencies", "lastResult",
         "recomputations", "resetRecomputations"] :=
  ⟨rfl, rfl, rfl⟩

/-- Decides whether a call with `args` misses the outer args-cache, i.e.
whether `dependenciesChecker` runs at all. -/
def outerMisses [DecidableEq σ] (st : SelState σ γ ρ) (args : List σ) : Bool :=
  match st.outer with
  | none => true
  | some p => !(pairwiseEq defaultValueEquals args p.1)

/-- C8 counterexample: with the global setting `never` during the first call
and `once` during the second (the global is mutable between calls), the
input-stability check fires on the second call — a call made while the
selector is no longer in state never-called — because `firstRun` is cleared
only when a check actually fires, refuting the claim that under `once` the
check fires exactly on the first call for every interleaved mutation of the
global setting. -/
theorem c8_counterexample :
    let r1 := c1Call .never initSelState [⟨1, 1⟩]
    let r2 := c1Call .once r1.state [⟨2, 1⟩]
    r1.checkFired = false ∧ r2.checkFired = true := by
  decide

/-- C8 amended: the check can only fire on a call whose raw arguments miss
the outer args-cache (only then does `dependenciesChecker` run) and never in
production mode; on such a run, effective `never` never fires, `always`
always fires, and `once` fires exactly while the internal `firstRun` flag is
still set — the flag being cleared precisely when a check fires, so that
under a constant `once` setting in development mode the check fires exactly
on the first call of the selector and on no later one. -/
theorem c8_amended_check_frequency {σ γ ρ : Type} [DecidableEq σ]
    (deps : List (List σ → γ)) (rf : Nat → List γ → ρ) (eqG : γ → γ → Bool)
    (isProd : Bool) (st : SelState σ γ ρ) (args : List σ) (g : StabilityCheck)
    (a0 : List σ) (rest : List (List σ)) :
    (selectorCall deps rf eqG none .never isProd st args).checkFired = false ∧
      (selectorCall deps rf eqG none .always isProd st args).checkFired =
        (!isProd && outerMisses st args) ∧
      (selectorCall deps rf eqG none .once isProd st args).checkFired =
        (!isProd && outerMisses st args && st.firstRun) ∧
      ((selectorCall deps rf eqG none g isProd st args).state.firstRun =
        if (selectorCall deps rf eqG none g isProd st args).checkFired then false
        else st.firstRun) ∧
      ((runCalls deps rf eqG none false initSelState
          ((a0 :: rest).map fun a => (StabilityCheck.once, a))).map
            SelCall.checkFired =
        true :: List.replicate rest.length false) := by
  have hsel : ∀ (icc : Option StabilityCheck) (g2 : StabilityCheck)
      (p2 : Bool) (st2 : SelState σ γ ρ) (args2 : List σ),
      (selectorCall deps rf eqG icc g2 p2 st2 args2).checkFired =
        (outerMisses st2 args2 && checkFires icc g2 p2 st2.firstRun) := by
    intro icc g2 p2 st2 args2
    cases hst : st2.outer with
    | none => simp [selectorCall, dependenciesCheckerRun, outerMisses, hst]
    | some p =>
        cases p with
        | mk cargs cres =>
            by_cases hp : pairwiseEq defaultValueEquals args2 cargs = true
            · simp [selectorCall, outerMisses, hst, hp]
            · simp [selectorCall, dependenciesCheckerRun, outerMisses, hst, hp]
  have hfr : ∀ (g2 : StabilityCheck) (p2 : Bool) (st2 : SelState σ γ ρ)
      (args2 : List σ),
      (selectorCall deps rf eqG none g2 p2 st2 args2).state.firstRun =
        if (selectorCall deps rf eqG none g2 p2 st2 args2).checkFired then
          false
        else st2.firstRun := by
    intro g2 p2 st2 args2
    cases hst : st2.outer with
    | none =>
        cases hc : checkFires none g2 p2 st2.firstRun <;>
          simp [selectorCall, dependenciesCheckerRun, hst, hc]
    | some p =>
        cases p with
        | mk cargs cres =>
            by_cases hp : pairwiseEq defaultValueEquals args2 cargs = true
            · simp [selectorCall, hst, hp]
            · cases hc : checkFires none g2 p2 st2.firstRun <;>
                simp [selectorCall, dependenciesCheckerRun, hst, hp, hc]
  have hnever : ∀ fr, checkFires none .never isProd fr = false := by
    intro fr; cases isProd <;> rfl
  have halways : ∀ fr, checkFires none .always isProd fr = !isProd := by
    intro fr; cases isProd <;> rfl
  have honce : ∀ fr, checkFires none .once isProd fr = (!isProd && fr) := by
    intro fr; cases isProd <;> cases fr <;> rfl
  refine ⟨?_, ?_, ?_, hfr g isProd st args, ?_⟩
  case _ => rw [hsel, hnever, Bool.and_false]
  case _ => rw [hsel, halways, Bool.and_comm]
  case _ =>
    rw [hsel, honce]
    simp [Bool.and_comm, Bool.and_left_comm, Bool.and_assoc]
  case _ =>
    have honce0 : checkFires none StabilityCheck.once false false = false := rfl
    have hfirst : ∀ (st2 : SelState σ γ ρ) (args2 : List σ),
        st2.firstRun = false →
        (selectorCall deps rf eqG none .once false st2 args2).checkFired = false ∧
          (selectorCall deps rf eqG none .once false st2 args2).state.firstRun
            = false := by
      intro st2 args2 h2
      have h3 : (selectorCall deps rf eqG none .once false st2 args2).checkFired
          = false := by
        rw [hsel, h2, honce0, Bool.and_false]
      refine ⟨h3, ?_⟩
      rw [hfr, h3, if_neg (by simp), h2]
    have htail : ∀ (calls : List (List σ)) (st2 : SelState σ γ ρ),
        st2.firstRun = false →
        (runCalls deps rf eqG none false st2
            (calls.map fun a => (StabilityCheck.once, a))).map
              SelCall.checkFired =
          List.replicate calls.length false := by
      intro calls
      induction calls with
      | nil => intro st2 _; rfl
      | cons c cs ih =>
          intro st2 h2
          have h3 := hfirst st2 c h2
          simp only [List.map_cons, runCalls, List.map, h3.1,
            List.length_cons, List.replicate]
          rw [ih _ h3.2]
    have hhead : (selectorCall deps rf eqG none .once false
        (initSelState : SelState σ γ ρ) a0).checkFired = true ∧
        (selectorCall deps rf eqG none .once false
          (initSelState : SelState σ γ ρ) a0).state.firstRun = false := by
      constructor
      · rw [hsel]
        rfl
      · rw [hfr, hsel]
        rfl
    simp only [List.map_cons, runCalls, List.map, hhead.1]
    rw [htail rest _ hhead.2]


/-- Projection of a selector state to its value-relevant components: the two
result caches, the recomputation counter and the last result — everything
except the bookkeeping of the advisory check (`makeAnObjectArgs`,
`firstRun`). -/
def valueView (st : SelState σ γ ρ) :
    Option (List σ × ρ) × Option (List γ × ρ) × Nat × Option ρ :=
  (st.outer, st.inner, st.recomputations, st.lastResult)

/-- C9: noninterference of the input-stability check — for any two selector
states agreeing on the value-relevant components and any two configurations
of the check (per-selector override, global setting, production flag), a
call with the same arguments returns the same value, invokes the combiner
the same way, and leaves the value-relevant components equal; the check
never interrupts control flow (the step is a total function) and the
combiner is always applied to the first extraction `P`. Input selectors and
the combiner are pure functions in this embedding, matching the purity
hypothesis of the claim. -/
theorem c9_stability_check_noninterference {σ γ ρ : Type} [DecidableEq σ]
    (deps : List (List σ → γ)) (rf : Nat → List γ → ρ) (eqG : γ → γ → Bool)
    (isc1 isc2 : Option StabilityCheck) (g1 g2 : StabilityCheck)
    (p1 p2 : Bool) (st1 st2 : SelState σ γ ρ) (args : List σ)
    (h : valueView st1 = valueView st2) :
    (selectorCall deps rf eqG isc1 g1 p1 st1 args).ret =
        (selectorCall deps rf eqG isc2 g2 p2 st2 args).ret ∧
      valueView (selectorCall deps rf eqG isc1 g1 p1 st1 args).state =
        valueView (selectorCall deps rf eqG isc2 g2 p2 st2 args).state ∧
      (selectorCall deps rf eqG isc1 g1 p1 st1 args).combinerInvoked =
        (selectorCall deps rf eqG isc2 g2 p2 st2 args).combinerInvoked := by
  simp only [valueView, Prod.mk.injEq] at h
  obtain ⟨ho, hi, hr, hl⟩ := h
  cases hst : st1.outer with
  | some p =>
      cases p with
      | mk cargs cres =>
          by_cases hp : pairwiseEq defaultValueEquals args cargs = true
          · simp [selectorCall, hst, ← ho, hp, valueView, hi, hr, hl]
          · simp only [selectorCall, hst, ← ho, hp, Bool.false_eq_true,
              if_false, dependenciesCheckerRun, valueView, ← hi, ← hr]
            cases st1.inner with
            | none => simp
            | some q =>
                cases q with
                | mk cp cr =>
                    by_cases hq : pairwiseEq eqG (deps.map fun d => d args) cp
                      = true
                    · simp [hq]
                    · simp [hq]
  | none =>
      simp only [selectorCall, hst, ← ho, dependenciesCheckerRun, valueView,
        ← hi, ← hr]
      cases st1.inner with
      | none => simp
      | some q =>
          cases q with
          | mk cp cr =>
              by_cases hq : pairwiseEq eqG (deps.map fun d => d args) cp = true
              · simp [hq]
              · simp [hq]

/-- Witness for C9: override `none` against override `some always`, global
`once` against `never`, development against production, on scenario A. -/
theorem c9_stability_check_noninterference_witness :
    (selectorCall [selStateA] combId defaultValueEquals none .once false
        initSelState [⟨1, 1⟩]).ret =
      (selectorCall [selStateA] combId defaultValueEquals (some .always) .never
        true initSelState [⟨1, 1⟩]).ret ∧
    valueView (selectorCall [selStateA] combId defaultValueEquals none .once
        false initSelState [⟨1, 1⟩]).state =
      valueView (selectorCall [selStateA] combId defaultValueEquals
        (some .always) .never true initSelState [⟨1, 1⟩]).state ∧
    (selectorCall [selStateA] combId defaultValueEquals none .once false
        initSelState [⟨1, 1⟩]).combinerInvoked =
      (selectorCall [selStateA] combId defaultValueEquals (some .always) .never
        true initSelState [⟨1, 1⟩]).combinerInvoked :=
  c9_stability_check_noninterference [selStateA] combId defaultValueEquals
    none (some .always) .once .never false true initSelState initSelState
    [⟨1, 1⟩] rfl

/-! Embedding of the composition-time validation performed by
`createSelector` and `createStructuredSelector`. Arguments are JavaScript
values abstracted to the shape the validation inspects: their `typeof`
string, array-ness, null-ness, function name and object properties. -/

/-- JavaScript value as seen by the validation code. -/
inductive JSArg where
  | func (name : String)
  | obj (fields : List (String × JSArg))
  | arr (elems : List JSArg)
  | num (n : Nat)
  | str (s : String)
  | boolV (b : Bool)
  | undef
  | nullV

/-- JavaScript `typeof`; note `typeof null` and `typeof []` are both
the string `object`. -/
def typeofArg : JSArg → String
  | .func _ => "function"
  | .obj _ => "object"
  | .arr _ => "object"
  | .nullV => "object"
  | .num _ => "number"
  | .str _ => "string"
  | .boolV _ => "boolean"
  | .undef => "undefined"

/-- Description of one dependency in the validation message:
`function name()` (with `unnamed` for an empty name) for functions, the
`typeof` string otherwise. -/
def dependencyTypeDescription : JSArg → String
  | .func name => "function " ++ (if name = "" then "unnamed" else name) ++ "()"
  | v => typeofArg v

/-- Message of the input-selector validation error thrown by
`getDependencies`; it lists the description of every dependency. -/
def depsErrorMessage (deps : List JSArg) : String :=
  "createSelector expects all input-selectors to be functions, but received " ++
    "the following types: [" ++
    String.intercalate ", " (deps.map dependencyTypeDescription) ++ "]"

/-- Message of the missing-combiner validation error thrown by
`createSelector`; it carries the `typeof` of the received value. -/
def outputErrorMessage (t : String) : String :=
  "createSelector expects an output function after the inputs, but " ++
    "received: [" ++ t ++ "]"

/-- JavaScript `array.pop()` on the model: the last element (or `undefined`
when empty) and the remaining array. -/
def popLast (l : List JSArg) : JSArg × List JSArg :=
  match l.getLast? with
  | some x => (x, l.dropLast)
  | none => (JSArg.undef, l)

/-- Tests for the literal `null`. -/
def isNullV : JSArg → Bool
  | .nullV => true
  | _ => false

/-- Resolution of the rest parameter of `createSelector`: pop the result
function; when the popped value is object-typed it is taken as the options
object and the real result function is popped next. Returns the options slot
(if taken), the resolved result function and the remaining arguments. -/
def resolveArgs (funcs : List JSArg) : Option JSArg × JSArg × List JSArg :=
  let p0 := popLast funcs
  if typeofArg p0.1 == "object" then
    let p1 := popLast p0.2
    (some p0.1, p1.1, p1.2)
  else (none, p0.1, p0.2)

/-- Resolution step of `getDependencies`: when the first remaining argument
is an array, that array holds the input selectors; otherwise the remaining
arguments themselves do. -/
def resolveDependencies (funcs : List JSArg) : List JSArg :=
  match funcs with
  | .arr elems :: _ => elems
  | _ => funcs

/-- Embedding of `getDependencies`: every dependency must satisfy
`typeof dep === "function"`, otherwise the validation error listing the
received types is thrown. -/
def getDependenciesModel (funcs : List JSArg) : Except String (List JSArg) :=
  let dependencies := resolveDependencies funcs
  if dependencies.all fun d => typeofArg d == "function" then .ok dependencies
  else .error (depsErrorMessage dependencies)

/-- Embedding of the composition phase of `createSelector`: resolve the
result function and the options object, throw the missing-combiner error
when the resolved result function is not a function (the message carrying
its `typeof`), throw the destructuring type error when the options slot
holds the literal `null`, then validate the dependencies. On success no
further validation exists: the produced selector step (`selectorCall`) is a
total function, so the two configuration errors can only arise here, at
composition time. -/
def createSelectorModel (funcs : List JSArg) :
    Except String (List JSArg × JSArg) :=
  let r := resolveArgs funcs
  if typeofArg r.2.1 != "function" then
    .error (outputErrorMessage (typeofArg r.2.1))
  else if (r.1.map isNullV).getD false then
    .error "TypeError: cannot destructure the options object, it is null"
  else
    (getDependenciesModel r.2.2).map fun deps => (deps, r.2.1)

/-- C5: composition-time validation of `createSelector` — whenever
composition succeeds, the resolved combiner and every resolved input
selector are functions (so invalid configurations never reach call time:
`selectorCall` performs no validation); when the resolved combiner is not a
function, composition throws the configuration error whose message carries
the `typeof` of the received value; when the combiner is a function (and the
options slot is not the literal `null`, which the source rejects first with
a destructuring type error) but some resolved input selector is not a
function, composition throws the configuration error whose message lists the
per-dependency type descriptions. -/
theorem c5_composition_time_validation (funcs : List JSArg) :
    (∀ deps rf, createSelectorModel funcs = .ok (deps, rf) →
      typeofArg rf = "function" ∧ ∀ d ∈ deps, typeofArg d = "function") ∧
      (typeofArg (resolveArgs funcs).2.1 ≠ "function" →
        createSelectorModel funcs =
          .error (outputErrorMessage (typeofArg (resolveArgs funcs).2.1))) ∧
      (typeofArg (resolveArgs funcs).2.1 = "function" →
        ((resolveArgs funcs).1.map isNullV).getD false = false →
        (resolveDependencies (resolveArgs funcs).2.2).all
            (fun d => typeofArg d == "function") = false →
        createSelectorModel funcs =
          .error (depsErrorMessage
            (resolveDependencies (resolveArgs funcs).2.2))) := by
  refine ⟨?_, ?_, ?_⟩
  · intro deps rf hok
    simp only [createSelectorModel, getDependenciesModel] at hok
    split at hok
    · simp at hok
    · split at hok
      · simp at hok
      · split at hok
        · rename_i hrfneg hnull hall
          simp only [Except.map] at hok
          have h2 := Except.ok.inj hok
          simp only [Prod.mk.injEq] at h2
          obtain ⟨h3, h4⟩ := h2
          subst h3
          subst h4
          constructor
          · simp only [bne_iff_ne, Decidable.not_not] at hrfneg
            exact hrfneg
          · intro d hd
            simp only [List.all_eq_true, beq_iff_eq] at hall
            exact hall d hd
        · simp only [Except.map] at hok
          simp at hok
  · intro hrf
    have hb : (typeofArg (resolveArgs funcs).2.1 != "function") = true := by
      simpa [bne_iff_ne] using hrf
    simp only [createSelectorModel]
    rw [if_pos hb]
  · intro hrf hnull hdeps
    have hb : (typeofArg (resolveArgs funcs).2.1 != "function") = false := by
      simp [bne_iff_ne, hrf]
    simp only [createSelectorModel, getDependenciesModel]
    rw [if_neg (by simp [hb]), if_neg (by simp [hnull]),
      if_neg (by simp [hdeps])]
    rfl

/-- Witness for C5: a combiner slot holding the number `3` triggers the
missing-combiner error naming `number`; a dependency list holding the number
`7` next to a function combiner triggers the input-selector error listing
`number`. -/
theorem c5_composition_time_validation_witness :
    createSelectorModel [JSArg.num 3] =
        .error (outputErrorMessage (typeofArg (JSArg.num 3))) ∧
      createSelectorModel [JSArg.num 7, JSArg.func "f"] =
        .error (depsErrorMessage [JSArg.num 7]) :=
  ⟨(c5_composition_time_validation [JSArg.num 3]).2.1 (by decide),
    (c5_composition_time_validation [JSArg.num 7, JSArg.func "f"]).2.2
      (by decide) (by decide) (by decide)⟩

/-- Property names and the corresponding values read back by
`objectKeys.map(key => selectors[key])` in `createStructuredSelector`;
`Object.keys` throws a type error on `null` or `undefined`, yields index
keys on an array, and an empty list on other primitives. -/
def objectEntries : JSArg → Except Unit (List (String × JSArg))
  | .obj fields =>
      .ok (fields.map fun p =>
        (p.1, ((fields.find? fun q => q.1 == p.1).map fun q => q.2).getD .undef))
  | .arr elems => .ok (elems.enum.map fun p => (toString p.1, p.2))
  | .nullV => .error ()
  | .undef => .error ()
  | _ => .ok []

/-- Error cases of `createStructuredSelector`: its own configuration error
(tagged with its message), a configuration error propagated from the inner
`createSelector` call, or the type error `Object.keys` throws on `null`. -/
inductive StructError where
  | structConfig (msg : String)
  | inputsConfig (msg : String)
  | typeErrorKeys
  deriving DecidableEq, Repr

/-- Message of the validation error of `createStructuredSelector`, carrying
the `typeof` of the received value. -/
def structErrorMessage (t : String) : String :=
  "createStructuredSelector expects first argument to be an object " ++
    "where each property is a selector, instead received a " ++ t

/-- Embedding of the composition phase of `createStructuredSelector`: throw
its configuration error when `typeof selectors` is not the string `object`;
otherwise enumerate the keys (a type error on `null`), read the values back
and hand them to `createSelector` as the dependency array together with the
assembling combiner (a real function, here `func` with an empty name). On
success, the key list and the validated dependencies are returned. -/
def createStructuredSelectorModel (selectors : JSArg) :
    Except StructError (List String × List JSArg) :=
  if typeofArg selectors != "object" then
    .error (.structConfig (structErrorMessage (typeofArg selectors)))
  else
    match objectEntries selectors with
    | .error _ => .error .typeErrorKeys
    | .ok entries =>
        match createSelectorModel
            [.arr (entries.map fun p => p.2), .func ""] with
        | .error msg => .error (.inputsConfig msg)
        | .ok r => .ok (entries.map fun p => p.1, r.1)

/-- Discriminates the own configuration error of
`createStructuredSelector`. -/
def isStructConfigError : Except StructError (List String × List JSArg) → Bool
  | .error (.structConfig _) => true
  | _ => false

/-- Discriminates any error outcome. -/
def isAnyError : Except StructError (List String × List JSArg) → Bool
  | .error _ => true
  | _ => false

/-- C6 counterexample: `null` is not an object-shaped mapping of named
selectors, yet `typeof null` is the string `object`, so the validation does
not throw the configuration error naming the received type — key enumeration
then throws a generic type error instead; and an array of functions, not an
object-shaped mapping of named selectors either, is accepted with no error
at all. This refutes the claim for these two first arguments. -/
theorem c6_counterexample :
    isStructConfigError (createStructuredSelectorModel .nullV) = false ∧
      createStructuredSelectorModel .nullV = .error .typeErrorKeys ∧
      isStructConfigError
        (createStructuredSelectorModel (.arr [.func "s"])) = false ∧
      isAnyError (createStructuredSelectorModel (.arr [.func "s"])) = false :=
  ⟨rfl, rfl, rfl, rfl⟩

/-- C6 amended: `createStructuredSelector` raises its configuration error —
whose message names the `typeof` of the received value — exactly when that
`typeof` is not the string `object`; `null` and arrays, both of `typeof`
`object`, pass this validation (`null` then fails key enumeration with a
generic type error, and an array is treated as a mapping keyed by index). -/
theorem c6_amended_structured_validation (v : JSArg) :
    createStructuredSelectorModel v =
        .error (.structConfig (structErrorMessage (typeofArg v))) ↔
      typeofArg v ≠ "object" := by
  constructor
  · intro h
    intro hobj
    have hb : (typeofArg v != "object") = false := by simp [bne_iff_ne, hobj]
    simp only [createStructuredSelectorModel, hb, Bool.false_eq_true,
      if_false] at h
    cases he : objectEntries v with
    | error u => simp [he] at h
    | ok entries =>
        simp only [he] at h
        cases hc : createSelectorModel
            [.arr (entries.map fun p => p.2), .func ""] with
        | error msg => simp [hc] at h
        | ok r => simp [hc] at h
  · intro h
    have hb : (typeofArg v != "object") = true := by
      simpa [bne_iff_ne] using h
    simp only [createStructuredSelectorModel, hb, if_true]

theorem pairwiseEq_refl [DecidableEq α] (a : List α) :
    pairwiseEq defaultValueEquals a a = true := by
  simp [pairwiseEq, defaultValueEquals, List.zip_eq_zipWith, List.zipWith_same,
    List.all_eq_true]

/-- JavaScript property assignment `composition[key] = value` on an
association-list object: overwrite an existing key, append a fresh one. -/
def jsSetProp (l : List (String × γ)) (k : String) (v : γ) :
    List (String × γ) :=
  if l.any fun p => p.1 == k then
    l.map fun p => if p.1 == k then (k, v) else p
  else l ++ [(k, v)]

/-- Embedding of the assembling combiner of `createStructuredSelector`:
`values.reduce((composition, value, index) =>
composition[objectKeys[index]] = value, initial empty object)`. -/
def structAssemble (keys : List String) (values : List γ) :
    List (String × γ) :=
  values.enum.foldl (fun comp p => jsSetProp comp ((keys.get? p.1).getD "") p.2)
    []

/-- Assembling combiner tagged with the recomputation count at which it ran:
the count acts as the allocation identity of the freshly created mapping
object, so two calls return the same object reference exactly when they
return the same tagged value. -/
def structCombiner (keys : List String) :
    Nat → List γ → Nat × List (String × γ) :=
  fun n values => (n, structAssemble keys values)

/-- The selector built by `createStructuredSelector` for a two-key mapping
with keys `x` and `y`: input selectors in key order, the assembling
combiner, the default strict equality, development mode, global setting
`once`. -/
def structuredSelectorCall [DecidableEq σ] [DecidableEq γ]
    (d1 d2 : List σ → γ) (st : SelState σ γ (Nat × List (String × γ)))
    (args : List σ) : SelCall σ γ (Nat × List (String × γ)) :=
  selectorCall [d1, d2] (structCombiner ["x", "y"]) defaultValueEquals none
    .once false st args

theorem dcr_inner_hit [DecidableEq σ] (deps : List (List σ → γ))
    (rf : Nat → List γ → ρ) (eqG : γ → γ → Bool)
    (isc : Option StabilityCheck) (g : StabilityCheck) (p : Bool)
    (st : SelState σ γ ρ) (args : List σ) (cp : List γ) (cr : ρ)
    (hinner : st.inner = some (cp, cr))
    (hhit : pairwiseEq eqG (deps.map fun d => d args) cp = true) :
    (dependenciesCheckerRun deps rf eqG isc g p st args).ret = cr ∧
      (dependenciesCheckerRun deps rf eqG isc g p st args).combinerInvoked
        = false := by
  simp only [dependenciesCheckerRun, hinner, hhit, if_true]
  refine ⟨?_, ?_⟩ <;> trivial

/-- C7: the structured selector over named selectors `x` and `y` returns the
mapping from `x` to the first extraction and `y` to the second; and for two
consecutive calls whose arguments produce pairwise-identical extracted
values, the second call returns the exact same tagged mapping object as the
first — same allocation identity, combiner not re-invoked — not merely an
equal copy. -/
theorem c7_structured_selector {σ γ : Type} [DecidableEq σ] [DecidableEq γ]
    (d1 d2 : List σ → γ) (args1 args2 : List σ) :
    (structuredSelectorCall d1 d2 initSelState args1).ret.2 =
        [("x", d1 args1), ("y", d2 args1)] ∧
      (d1 args2 = d1 args1 → d2 args2 = d2 args1 →
        (structuredSelectorCall d1 d2
            (structuredSelectorCall d1 d2 initSelState args1).state args2).ret =
          (structuredSelectorCall d1 d2 initSelState args1).ret ∧
        (structuredSelectorCall d1 d2
            (structuredSelectorCall d1 d2 initSelState args1).state
            args2).combinerInvoked = false) := by
  have e1 : (structuredSelectorCall d1 d2 initSelState args1).state.outer =
      some (args1, (structuredSelectorCall d1 d2 initSelState args1).ret) := rfl
  have e2 : (structuredSelectorCall d1 d2 initSelState args1).state.inner =
      some ([d1 args1, d2 args1],
        (structuredSelectorCall d1 d2 initSelState args1).ret) := rfl
  constructor
  · rfl
  · intro h1 h2
    by_cases hp : pairwiseEq defaultValueEquals args2 args1 = true
    · simp only [structuredSelectorCall, selectorCall] at e1 ⊢
      simp only [e1, hp, if_true]
      refine ⟨?_, ?_⟩ <;> trivial
    · have hhit : pairwiseEq defaultValueEquals
          ([d1, d2].map fun d => d args2) [d1 args1, d2 args1] = true := by
        show pairwiseEq defaultValueEquals [d1 args2, d2 args2]
          [d1 args1, d2 args1] = true
        rw [h1, h2]
        exact pairwiseEq_refl _
      have hmiss := dcr_inner_hit [d1, d2] (structCombiner ["x", "y"])
        defaultValueEquals none .once false
        (structuredSelectorCall d1 d2 initSelState args1).state args2
        [d1 args1, d2 args1]
        (structuredSelectorCall d1 d2 initSelState args1).ret e2 hhit
      simp only [structuredSelectorCall, selectorCall] at e1 hmiss ⊢
      simp only [e1, hp, Bool.false_eq_true, if_false]
      exact hmiss

/-- First input selector of the C7 witness instance. -/
def c7d1 : List Nat → Nat := fun l => (l.get? 0).getD 0

/-- Second input selector of the C7 witness instance. -/
def c7d2 : List Nat → Nat := fun l => (l.get? 0).getD 0 + 1

/-- Witness for C7: same state value `4` on both calls. -/
theorem c7_structured_selector_witness :
    (structuredSelectorCall c7d1 c7d2 initSelState [4]).ret.2 =
        [("x", c7d1 [4]), ("y", c7d2 [4])] ∧
      (structuredSelectorCall c7d1 c7d2
          (structuredSelectorCall c7d1 c7d2 initSelState [4]).state [4]).ret =
        (structuredSelectorCall c7d1 c7d2 initSelState [4]).ret ∧
      (structuredSelectorCall c7d1 c7d2
          (structuredSelectorCall c7d1 c7d2 initSelState [4]).state
          [4]).combinerInvoked = false :=
  have h := c7_structured_selector c7d1 c7d2 [4] [4]
  ⟨h.1, (h.2 rfl rfl).1, (h.2 rfl rfl).2⟩

end Reselect
